import Mathlib

/-!
Verification of the SADAK filesystem core (shallow embedding of the Rust
sources in src/). Buffers are lists of byte values (naturals below 256),
devices are explicit functional states, and every fallible operation
returns an Except value. Locks serialise access in the source; the model
is sequential, so lock create/acquire/release calls (SysLock) are elided.
The source literal for the volume magic, 0x5ADAKF5 in fs.rs, is not a
valid hexadecimal literal (the digit K does not exist); the model fixes
an arbitrary nonzero 64-bit constant in its place, obtained by dropping
the invalid digit. No result below depends on the particular value, only
on the constant being nonzero and shared between format and mount.
-/

namespace Sadak

/-- Error type of sahne_syscalls.rs (SyscallError). Constructor names are
adjusted (ioFault for EIO, invalidArg for EINVAL, noMem for ENOMEM,
tryAgain for EAGAIN, unknown for Unknown). -/
inductive SyscallError where
  | ioFault
  | invalidArg
  | noMem
  | tryAgain
  | unknown (code : Int)
deriving DecidableEq

/-- checksum.rs: CRC32C_POLY. -/
def CRC32C_POLY : Nat := 0x82F63B78

/-- checksum.rs: CRC32C_INITIAL. -/
def CRC32C_INITIAL : Nat := 0xFFFFFFFF

/-- One iteration of the inner loop of init_crc32c_table in checksum.rs:
shift right, conditionally XOR with the polynomial. -/
def crcBitStep (crc : Nat) : Nat :=
  if crc &&& 1 = 1 then (crc >>> 1) ^^^ CRC32C_POLY else crc >>> 1

/-- Entry i of the lookup table of init_crc32c_table in checksum.rs: eight
crcBitStep iterations applied to i. -/
def crcEntry (i : Nat) : Nat := crcBitStep^[8] i

/-- checksum.rs: CRC32C_TABLE, the 256-entry lookup table. -/
def CRC32C_TABLE : List Nat := (List.range 256).map crcEntry

/-- One iteration of the loop of calculate_crc32c in checksum.rs:
index = (crc as u8) ^ byte; crc = (crc >> 8) ^ CRC32C_TABLE[index]. -/
def crcByteStep (crc b : Nat) : Nat :=
  (crc >>> 8) ^^^ CRC32C_TABLE.getD ((crc &&& 255) ^^^ b) 0

/-- checksum.rs: calculate_crc32c. The register starts at
initial_crc ^ CRC32C_INITIAL and the result is XORed with CRC32C_INITIAL. -/
def calculate_crc32c (data : List Nat) (initial_crc : Nat) : Nat :=
  (data.foldl crcByteStep (initial_crc ^^^ CRC32C_INITIAL)) ^^^ CRC32C_INITIAL

/-- checksum.rs: checksum_data, calculate_crc32c with initial value
CRC32C_INITIAL. Note the double inversion: the effective register then
starts at 0, not at 0xFFFFFFFF. -/
def checksum_data (data : List Nat) : Nat := calculate_crc32c data CRC32C_INITIAL

/-- Modelled from the spec (section 6, CRC32C): the reference CRC32C —
Castagnoli polynomial in reflected, table-driven form, with initial and
final XOR 0xFFFFFFFF. Used only to state claim-side properties; the code
under test is checksum_data above. -/
def refCrc32c (data : List Nat) : Nat :=
  (data.foldl crcByteStep 0xFFFFFFFF) ^^^ 0xFFFFFFFF

/-- block_device.rs: BLOCK_SIZE. -/
def BLOCK_SIZE : Nat := 4096

/-- An in-memory block device instantiating the BlockDevice trait of
block_device.rs for the filesystem-level claims: blocks holds the current
content of every block, readLog records each read_block call in order,
writeLog each write_block call, flushes counts flush calls. Reads and
writes on this device always succeed (failure injection lives in the
RAID member model below). -/
structure MemDev where
  totalBlocks : Nat
  blocks : Nat → List Nat
  readLog : List Nat := []
  writeLog : List (Nat × List Nat) := []
  flushes : Nat := 0

/-- read_block on the in-memory device: returns the current content of
the block and records the read. -/
def MemDev.read_block (d : MemDev) (id : Nat) : List Nat × MemDev :=
  (d.blocks id, { d with readLog := d.readLog ++ [id] })

/-- write_block on the in-memory device: replaces the content of the
block and records the write. -/
def MemDev.write_block (d : MemDev) (id : Nat) (data : List Nat) : MemDev :=
  { d with blocks := fun i => if i = id then data else d.blocks i,
           writeLog := d.writeLog ++ [(id, data)] }

/-- flush on the in-memory device: records the flush request. -/
def MemDev.flush (d : MemDev) : MemDev := { d with flushes := d.flushes + 1 }

/-- cache.rs: CacheBlock — the raw data of one block, its id, and the
dirty flag. -/
structure CacheBlock where
  data : List Nat
  block_id : Nat
  is_dirty : Bool
deriving DecidableEq

/-- cache.rs: BlockCache::get_block. The source keeps no cache map (the
map is a TODO comment): every call allocates a fresh zeroed buffer via
CacheBlock::new_empty (is_dirty starts true there), reads the block from
the device into it, sets is_dirty to false and returns the buffer. The
device read always succeeds on MemDev, so the Result is always Ok. -/
def get_block (dev : MemDev) (id : Nat) : CacheBlock × MemDev :=
  let (buf, dev1) := dev.read_block id
  (⟨buf, id, false⟩, dev1)

/-- allocator.rs: BLOCKS_PER_BITMAP_BLOCK = BLOCK_SIZE * 8. -/
def BLOCKS_PER_BITMAP_BLOCK : Nat := BLOCK_SIZE * 8

/-- allocator.rs: AllocatorError (the DeviceError case cannot arise on
MemDev, whose reads always succeed). -/
inductive AllocatorError where
  | deviceError (e : SyscallError)
  | outOfSpace
  | syscallFailure (e : SyscallError)
deriving DecidableEq

/-- allocator.rs: the Allocator state — bitmap region start, total block
count, bitmap block count. The cache handle is passed explicitly as the
MemDev argument of allocate_block; the mutex is elided. -/
structure Allocator where
  bitmap_start_id : Nat
  total_blocks : Nat
  bitmap_block_count : Nat
deriving DecidableEq

/-- allocator.rs: Allocator::new — bitmap_block_count =
ceil(total_blocks / BLOCKS_PER_BITMAP_BLOCK). -/
def Allocator.new (total_blocks bitmap_start_id : Nat) : Allocator :=
  { bitmap_start_id := bitmap_start_id,
    total_blocks := total_blocks,
    bitmap_block_count :=
      (total_blocks + BLOCKS_PER_BITMAP_BLOCK - 1) / BLOCKS_PER_BITMAP_BLOCK }

/-- Inner loop of Allocator::find_free_bit: the first bit index k in 0..8
with (byte & (1 << k)) == 0. -/
def firstZeroBit (b : Nat) : Option Nat :=
  (List.range 8).find? (fun k => b &&& (1 <<< k) == 0)

/-- allocator.rs: Allocator::find_free_bit — scan bytes in ascending
order; in a byte that is not 0xFF take the lowest zero bit. -/
def findFreeBitGo : List Nat → Nat → Option (Nat × Nat)
  | [], _ => none
  | b :: rest, idx =>
      if b ≠ 255 then
        match firstZeroBit b with
        | some k => some (idx, k)
        | none => findFreeBitGo rest (idx + 1)
      else findFreeBitGo rest (idx + 1)

/-- allocator.rs: Allocator::find_free_bit entry point. -/
def find_free_bit (bitmap : List Nat) : Option (Nat × Nat) := findFreeBitGo bitmap 0

/-- Loop body of Allocator::allocate_block over the remaining bitmap
block indices. On a hit the source sets the bit in the cache buffer and
marks it dirty, but cache.rs keeps no map of buffers and never writes
them back, so those mutations live only in the transient CacheBlock that
allocate_block drops on return; the device therefore carries no trace of
them beyond the read log. -/
def allocGo (a : Allocator) : List Nat → MemDev → Except AllocatorError (Nat × MemDev)
  | [], _ => .error .outOfSpace
  | i :: rest, dev =>
      let (blk, dev1) := get_block dev (a.bitmap_start_id + i)
      match find_free_bit blk.data with
      | some (byte_index, bit_index) =>
          .ok (i * BLOCKS_PER_BITMAP_BLOCK + byte_index * 8 + bit_index, dev1)
      | none => allocGo a rest dev1

/-- allocator.rs: Allocator::allocate_block — scan bitmap blocks 0 ..
bitmap_block_count in ascending order and return the global LBA of the
first free bit, or OutOfSpace. -/
def Allocator.allocate_block (a : Allocator) (dev : MemDev) :
    Except AllocatorError (Nat × MemDev) :=
  allocGo a (List.range a.bitmap_block_count) dev

/-- Little-endian byte serialisation: the n low-order bytes of v. -/
def leBytes : Nat → Nat → List Nat
  | 0, _ => []
  | n + 1, v => (v &&& 255) :: leBytes n (v >>> 8)

/-- Little-endian decoding of the n bytes of blk starting at offset off
(missing positions read as zero). -/
def readLE (blk : List Nat) (off n : Nat) : Nat :=
  (((blk.drop off).take n).reverse).foldl (fun acc b => acc * 256 + b) 0

/-- fs.rs: SADAK_MAGIC. The source literal 0x5ADAKF5 is not valid
hexadecimal (K); the model drops the invalid digit and uses the fixed
nonzero constant 0x5ADAF5 shared by format and mount. -/
def SADAK_MAGIC : Nat := 0x5ADAF5

/-- fs.rs: SADAK_VERSION. -/
def SADAK_VERSION : Nat := 1

/-- fs.rs: the Superblock struct (field values as naturals). -/
structure Superblock where
  magic : Nat
  version : Nat
  total_blocks : Nat
  metadata_root_id : Nat
  bitmap_start_id : Nat
  timestamp : Nat
  checksum : Nat
deriving DecidableEq

/-- The repr(C) layout of Superblock written into a 4096-byte block:
magic at offset 0, version at 8, six alignment padding bytes, then
total_blocks at 16, metadata_root_id at 24, bitmap_start_id at 32,
timestamp at 40, checksum at 48, zero padding to 4096. (The padding
array in the source overshoots the block by 8 bytes — its declared
length ignores the alignment gap after version — so the struct store in
format writes past the 4096-byte buffer; the model truncates the store
at the block boundary.) -/
def serializeSuperblock (sb : Superblock) : List Nat :=
  leBytes 8 sb.magic ++ leBytes 2 sb.version ++ List.replicate 6 0 ++
    leBytes 8 sb.total_blocks ++ leBytes 8 sb.metadata_root_id ++
    leBytes 8 sb.bitmap_start_id ++ leBytes 8 sb.timestamp ++
    leBytes 4 sb.checksum ++ List.replicate 4044 0

/-- Reading a Superblock back from raw block bytes (the sb_ptr.read()
in SadakFs::mount), at the repr(C) offsets above. -/
def parseSuperblock (blk : List Nat) : Superblock :=
  { magic := readLE blk 0 8,
    version := readLE blk 8 2,
    total_blocks := readLE blk 16 8,
    metadata_root_id := readLE blk 24 8,
    bitmap_start_id := readLE blk 32 8,
    timestamp := readLE blk 40 8,
    checksum := readLE blk 48 4 }

/-- fs.rs: SadakFsError. -/
inductive SadakFsError where
  | device (e : SyscallError)
  | allocatorError (e : AllocatorError)
  | checksumError
  | invalidSuperblock
  | syscallFailure (e : SyscallError)
deriving DecidableEq

/-- fs.rs: the SadakFs state — the cache (reduced to its device, the
only state cache.rs keeps), the allocator, the metadata tree root and
the live superblock image. The BTree value of the source holds only a
cache handle, a root id and a lock, so root_id represents it. -/
structure SadakFs where
  dev : MemDev
  allocator : Allocator
  root_id : Nat
  superblock : Superblock

/-- fs.rs: SadakFs::mount. Read block 0 through the cache, decode the
superblock, recompute checksum_data over the full 4096-byte block (the
stored checksum field included, exactly as the source does), and fail
with InvalidSuperblock when the magic or the checksum comparison fails;
otherwise build the allocator and tree from the decoded fields. -/
def mount (device : MemDev) : Except SadakFsError SadakFs :=
  let (sbBlock, dev1) := get_block device 0
  let sb := parseSuperblock sbBlock.data
  let calculatedCrc := checksum_data sbBlock.data
  if (sb.magic != SADAK_MAGIC) || (calculatedCrc != sb.checksum) then
    .error .invalidSuperblock
  else
    .ok { dev := dev1,
          allocator := Allocator.new dev1.totalBlocks sb.bitmap_start_id,
          root_id := sb.metadata_root_id,
          superblock := sb }

/-- fs.rs: SadakFs::format. Allocate a metadata root through the
allocator (which reads the bitmap blocks from the device), build the
superblock, copy it into the transient cache entry for block 0, compute
its checksum over the serialised block with the checksum field still
zero, store the checksum, mark the entry dirty, and flush the device.
The cache keeps no entries and never writes dirty buffers back, so the
only device effects are the reads and the flush. -/
def format (device : MemDev) : Except SadakFsError SadakFs :=
  let total_blocks := device.totalBlocks
  let bitmap_start_id := 1
  let allocator := Allocator.new total_blocks bitmap_start_id
  match allocator.allocate_block device with
  | .error e => .error (.allocatorError e)
  | .ok (metadata_root_id, dev1) =>
      let sb0 : Superblock :=
        { magic := SADAK_MAGIC, version := SADAK_VERSION,
          total_blocks := total_blocks, metadata_root_id := metadata_root_id,
          bitmap_start_id := bitmap_start_id, timestamp := 0, checksum := 0 }
      let (_sbBlock, dev2) := get_block dev1 0
      let ck := checksum_data (serializeSuperblock sb0)
      let sb1 := { sb0 with checksum := ck }
      let dev3 := dev2.flush
      .ok { dev := dev3, allocator := allocator,
            root_id := metadata_root_id, superblock := sb1 }

/-- fs.rs: SadakFs::sync. The body acquires and releases the lock and
calls cache.device.flush() — nothing else: no dirty block is written, no
superblock field is updated, and the device is flushed exactly once. -/
def sync (fs : SadakFs) : Except SadakFsError SadakFs :=
  .ok { fs with dev := fs.dev.flush }

/-- btree.rs: BTree::verify_checksum — recompute checksum_data over the
full 4096-byte node block (its checksum field included) and compare with
the stored header checksum. The repr(C) offset of the checksum field in
BTreeNodeHeader is 16 (node_type at 0, num_entries at 2, level at 4,
block_id at 8). -/
def verify_checksum (node_block : CacheBlock) : Bool :=
  checksum_data node_block.data == readLE node_block.data 16 4

/-- btree.rs: BTree::get_node — load the block through the cache and
fail with SyscallError::EIO (mapped into the device error type) when
verify_checksum fails. No comparison of the header block_id with the
requested id is performed. -/
def get_node (dev : MemDev) (id : Nat) : Except SyscallError (CacheBlock × MemDev) :=
  let (blk, dev1) := get_block dev id
  if verify_checksum blk then .ok (blk, dev1) else .error .ioFault

/-- A mirror member: an abstract BlockDevice with injectable failures.
readErr, writeErr and flushErr, when set, make the corresponding
operation fail with that error; the logs record every operation issued
to the member, whether or not it succeeds. This instantiates the generic
device parameter D of raid.rs for the mirror claims. -/
structure RDev where
  totalBlocks : Nat
  blocks : Nat → List Nat
  readErr : Option SyscallError := none
  writeErr : Option SyscallError := none
  flushErr : Option SyscallError := none
  readLog : List Nat := []
  writeLog : List (Nat × List Nat) := []
  flushCalls : Nat := 0

/-- read_block on a mirror member: the read is issued (logged) and
returns the block content, or the injected error. -/
def RDev.read_block (d : RDev) (id : Nat) : Except SyscallError (List Nat) × RDev :=
  let d1 := { d with readLog := d.readLog ++ [id] }
  match d.readErr with
  | some e => (.error e, d1)
  | none => (.ok (d.blocks id), d1)

/-- write_block on a mirror member: the write is issued (logged); on
success the block content is replaced, otherwise the injected error is
returned. -/
def RDev.write_block (d : RDev) (id : Nat) (data : List Nat) :
    Except SyscallError Unit × RDev :=
  match d.writeErr with
  | some e => (.error e, { d with writeLog := d.writeLog ++ [(id, data)] })
  | none =>
      (.ok (), { d with
        blocks := fun i => if i = id then data else d.blocks i,
        writeLog := d.writeLog ++ [(id, data)] })

/-- flush on a mirror member: the flush is issued (counted) and returns
the injected error if any. -/
def RDev.flush (d : RDev) : Except SyscallError Unit × RDev :=
  let d1 := { d with flushCalls := d.flushCalls + 1 }
  match d.flushErr with
  | some e => (.error e, d1)
  | none => (.ok (), d1)

/-- raid.rs: RaidError. -/
inductive RaidError where
  | ioError (errors : List SyscallError)
  | notEnoughDevices
  | sizeMismatch
  | syscallFailure (e : SyscallError)
deriving DecidableEq

/-- raid.rs: the Raid1Device struct — the member vector and the common
capacity. -/
structure Raid1Device where
  devices : List RDev
  total_blocks : Nat

/-- raid.rs: Raid1Device::new — fail with NotEnoughDevices below two
members, compute the minimum capacity, fail with SizeMismatch when any
member differs from it. -/
def Raid1Device.new (devices : List RDev) : Except RaidError Raid1Device :=
  if devices.length < 2 then .error .notEnoughDevices
  else
    let min_blocks := (devices.map (fun d => d.totalBlocks)).foldr min
      ((devices.map (fun d => d.totalBlocks)).headD 0)
    if devices.any (fun d => d.totalBlocks != min_blocks) then .error .sizeMismatch
    else .ok { devices := devices, total_blocks := min_blocks }

/-- Loop of Raid1Device::read_block in raid.rs: try the members in
order, return the first successful read, push each failure on the error
vector; when every member has failed, return IoError with the collected
errors. -/
def raidReadGo (id : Nat) : List RDev → List SyscallError →
    Except RaidError (List Nat) × List RDev
  | [], errors => (.error (.ioError errors), [])
  | d :: ds, errors =>
      match RDev.read_block d id with
      | (.ok v, d1) => (.ok v, d1 :: ds)
      | (.error e, d1) =>
          let (res, ds1) := raidReadGo id ds (errors ++ [e])
          (res, d1 :: ds1)

/-- raid.rs: Raid1Device::read_block. -/
def Raid1Device.read_block (r : Raid1Device) (id : Nat) :
    Except RaidError (List Nat) × Raid1Device :=
  let (res, ds) := raidReadGo id r.devices []
  (res, { r with devices := ds })

/-- Loop of Raid1Device::write_block in raid.rs: issue the write to
every member, collecting the errors in member order and counting the
successful writes. Returns the updated members, the error vector and the
success count. -/
def raidWriteGo (id : Nat) (data : List Nat) :
    List RDev → List RDev × List SyscallError × Nat
  | [] => ([], [], 0)
  | d :: ds =>
      let (res, d1) := RDev.write_block d id data
      let (ds1, errors, k) := raidWriteGo id data ds
      match res with
      | .ok _ => (d1 :: ds1, errors, k + 1)
      | .error e => (d1 :: ds1, e :: errors, k)

/-- raid.rs: Raid1Device::write_block — success only when every member
acknowledged, else IoError with the collected failures. -/
def Raid1Device.write_block (r : Raid1Device) (id : Nat) (data : List Nat) :
    Except RaidError Unit × Raid1Device :=
  let (ds, errors, k) := raidWriteGo id data r.devices
  (if k < r.devices.length then .error (.ioError errors) else .ok (),
   { r with devices := ds })

/-- Loop of Raid1Device::flush in raid.rs, same shape as the write
loop. -/
def raidFlushGo : List RDev → List RDev × List SyscallError × Nat
  | [] => ([], [], 0)
  | d :: ds =>
      let (res, d1) := RDev.flush d
      let (ds1, errors, k) := raidFlushGo ds
      match res with
      | .ok _ => (d1 :: ds1, errors, k + 1)
      | .error e => (d1 :: ds1, e :: errors, k)

/-- raid.rs: Raid1Device::flush — every member must acknowledge. -/
def Raid1Device.flush (r : Raid1Device) : Except RaidError Unit × Raid1Device :=
  let (ds, errors, k) := raidFlushGo r.devices
  (if k < r.devices.length then .error (.ioError errors) else .ok (),
   { r with devices := ds })

/-- Strict left-to-right evaluator of the CRC register loop, used only
inside proofs to compute concrete checksums (the branch forces the
register to a literal before each recursive call, keeping kernel
evaluation shallow). Equivalent to the table-driven loop by
crcRunS_eq_foldl and crcByteStep_eq_bit below. -/
def crcRunS : List Nat → Nat → Nat
  | [], r => r
  | b :: bs, r =>
      let r1 := crcBitStep^[8] (r ^^^ b)
      if r1 = 0 then crcRunS bs 0 else crcRunS bs r1

/-- A buffer is byte-valid when every element is an actual byte value. -/
def ByteValid (data : List Nat) : Prop := ∀ b ∈ data, b < 256

theorem xor_shiftRight_distrib (a b n : Nat) :
    (a ^^^ b) >>> n = (a >>> n) ^^^ (b >>> n) := by
  refine Nat.eq_of_testBit_eq fun i => ?_
  simp [Nat.testBit_shiftRight, Nat.testBit_xor]

theorem crcBitStep_xor_even (a l : Nat) (ha : 2 ∣ a) :
    crcBitStep (a ^^^ l) = (a >>> 1) ^^^ crcBitStep l := by
  have ha1 : a &&& 1 = 0 := by
    rw [Nat.and_one_is_mod]
    omega
  have hcond : (a ^^^ l) &&& 1 = l &&& 1 := by
    rw [Nat.and_xor_distrib_right, ha1, Nat.zero_xor]
  have hshift : (a ^^^ l) >>> 1 = (a >>> 1) ^^^ (l >>> 1) :=
    xor_shiftRight_distrib a l 1
  unfold crcBitStep
  rw [hcond, hshift]
  by_cases hl : l &&& 1 = 1
  · rw [if_pos hl, if_pos hl, Nat.xor_assoc]
  · rw [if_neg hl, if_neg hl]

theorem crcBitStep_iterate_xor (n : Nat) : ∀ a l : Nat, 2 ^ n ∣ a →
    crcBitStep^[n] (a ^^^ l) = (a >>> n) ^^^ crcBitStep^[n] l := by
  induction n with
  | zero => intro a l _; simp
  | succ n ih =>
      intro a l ha
      have ha2 : 2 ∣ a := dvd_trans (by exact Dvd.intro_left (2 ^ n) rfl) ha
      have hdiv : 2 ^ n ∣ a >>> 1 := by
        obtain ⟨k, rfl⟩ := ha
        rw [Nat.shiftRight_one, pow_succ]
        rw [show 2 ^ n * 2 * k = 2 * (2 ^ n * k) by ring]
        rw [Nat.mul_div_cancel_left _ (by norm_num)]
        exact Dvd.intro k rfl
      rw [Function.iterate_succ_apply, crcBitStep_xor_even a l ha2, ih _ _ hdiv,
        Function.iterate_succ_apply,
        show a >>> (n + 1) = a >>> 1 >>> n by rw [Nat.add_comm, Nat.shiftRight_add]]

theorem split_high_low (c : Nat) : ((c >>> 8) <<< 8) ^^^ (c &&& 255) = c := by
  have h255 : (255 : Nat) = 2 ^ 8 - 1 := by norm_num
  refine Nat.eq_of_testBit_eq fun i => ?_
  simp only [Nat.testBit_xor, Nat.testBit_shiftLeft, Nat.testBit_shiftRight,
    Nat.testBit_land, h255, Nat.testBit_two_pow_sub_one]
  by_cases h : 8 ≤ i
  · have : 8 + (i - 8) = i := by omega
    simp [h, this, show ¬ i < 8 by omega]
  · simp [h, show i < 8 by omega]

theorem table_getD (i : Nat) (h : i < 256) : CRC32C_TABLE.getD i 0 = crcEntry i := by
  unfold CRC32C_TABLE
  rw [List.getD_eq_getElem?_getD, List.getElem?_map, List.getElem?_range h]
  rfl

theorem crcByteStep_eq_bit (c b : Nat) (hb : b < 256) :
    crcByteStep c b = crcBitStep^[8] (c ^^^ b) := by
  have h256 : (256 : Nat) = 2 ^ 8 := by norm_num
  have hidx : (c &&& 255) ^^^ b < 256 := by
    rw [h256]
    exact Nat.xor_lt_two_pow (Nat.and_lt_two_pow c (by norm_num)) (h256 ▸ hb)
  have hsplit : c ^^^ b = ((c >>> 8) <<< 8) ^^^ ((c &&& 255) ^^^ b) := by
    rw [← Nat.xor_assoc, split_high_low]
  have hdvd : 2 ^ 8 ∣ (c >>> 8) <<< 8 := by
    rw [Nat.shiftLeft_eq]
    exact dvd_mul_left _ _
  have hback : ((c >>> 8) <<< 8) >>> 8 = c >>> 8 := by
    rw [Nat.shiftLeft_eq, Nat.shiftRight_eq_div_pow]
    exact Nat.mul_div_cancel _ (by norm_num)
  rw [hsplit, crcBitStep_iterate_xor 8 _ _ hdvd, hback]
  unfold crcByteStep
  rw [table_getD _ hidx]
  rfl

theorem foldl_byteStep_eq_bit (data : List Nat) : ∀ r : Nat, ByteValid data →
    data.foldl crcByteStep r = data.foldl (fun c b => crcBitStep^[8] (c ^^^ b)) r := by
  induction data with
  | nil => intro r _; rfl
  | cons b bs ih =>
      intro r h
      have hb : b < 256 := h b (by simp)
      have hbs : ByteValid bs := fun x hx => h x (by simp [hx])
      simp only [List.foldl_cons, crcByteStep_eq_bit r b hb, ih _ hbs]

theorem crcRunS_eq_foldl (data : List Nat) : ∀ r : Nat,
    crcRunS data r = data.foldl (fun c b => crcBitStep^[8] (c ^^^ b)) r := by
  induction data with
  | nil => intro r; rfl
  | cons b bs ih =>
      intro r
      show (if crcBitStep^[8] (r ^^^ b) = 0 then crcRunS bs 0
            else crcRunS bs (crcBitStep^[8] (r ^^^ b))) = _
      by_cases h : crcBitStep^[8] (r ^^^ b) = 0
      · rw [if_pos h, ih 0]
        simp only [List.foldl_cons, h]
      · rw [if_neg h, ih]
        simp only [List.foldl_cons]

theorem checksum_data_eval (data : List Nat) (h : ByteValid data) :
    checksum_data data = crcRunS data 0 ^^^ 0xFFFFFFFF := by
  unfold checksum_data calculate_crc32c
  rw [Nat.xor_self, foldl_byteStep_eq_bit data 0 h, crcRunS_eq_foldl]
  rfl

theorem refCrc32c_eval (data : List Nat) (h : ByteValid data) :
    refCrc32c data = crcRunS data 0xFFFFFFFF ^^^ 0xFFFFFFFF := by
  unfold refCrc32c
  rw [foldl_byteStep_eq_bit data 0xFFFFFFFF h, crcRunS_eq_foldl]

theorem byteValid_append {xs ys : List Nat} (hx : ByteValid xs) (hy : ByteValid ys) :
    ByteValid (xs ++ ys) := by
  intro b hb
  rcases List.mem_append.mp hb with h | h
  · exact hx b h
  · exact hy b h

theorem byteValid_replicate_zero (n : Nat) : ByteValid (List.replicate n 0) := by
  intro b hb
  rw [List.eq_of_mem_replicate hb]
  norm_num

theorem byteValid_leBytes : ∀ (n v : Nat), ByteValid (leBytes n v) := by
  intro n
  induction n with
  | zero => intro v b hb; simp [leBytes] at hb
  | succ n ih =>
      intro v b hb
      rcases List.mem_cons.mp hb with h | h
      · subst h
        calc v &&& 255 ≤ 255 := Nat.and_le_right
          _ < 256 := by norm_num
      · exact ih (v >>> 8) b h

theorem crcByteStep_zero : crcByteStep 0 0 = 0 := by decide

theorem foldl_byteStep_zeros : ∀ n : Nat,
    (List.replicate n 0).foldl crcByteStep 0 = 0 := by
  intro n
  induction n with
  | zero => rfl
  | succ n ih => rw [List.replicate_succ, List.foldl_cons, crcByteStep_zero, ih]

/-- checksum_data of an all-zero buffer: the effective register starts
at 0 and every zero byte maps register 0 back to 0 (table entry 0 is 0),
so the final XOR yields 0xFFFFFFFF — not 0, as the reference CRC32C of
the empty prefix convention would give. -/
theorem checksum_data_zeros (n : Nat) :
    checksum_data (List.replicate n 0) = 0xFFFFFFFF := by
  unfold checksum_data calculate_crc32c
  rw [Nat.xor_self, foldl_byteStep_zeros, Nat.zero_xor]
  rfl

/-- A fresh all-zero device of 4096 blocks (the device of the end-to-end
scenario 1 of the spec). -/
def zeroDev : MemDev :=
  { totalBlocks := 4096, blocks := fun _ => List.replicate 4096 0 }

/-- The ASCII bytes of the string 123456789, the standard CRC check
input. -/
def crcCheckInput : List Nat := [49, 50, 51, 52, 53, 54, 55, 56, 57]

/-- C4: the claim fails on the code. checksum_data passes CRC32C_INITIAL
as initial_crc to calculate_crc32c, which XORs it with CRC32C_INITIAL
again, so the register starts at 0 instead of 0xFFFFFFFF. The empty
buffer therefore hashes to 0xFFFFFFFF (not 0) and 123456789 hashes to
0xA71C05DF (not 0xE3069283). Passing initial_crc = 0 — the value the
slip turns into the standard initial register — reproduces the reference
vector exactly, confirming that the double inversion is the slip. -/
theorem c4_checksum_vectors_fail :
    checksum_data [] = 0xFFFFFFFF ∧ checksum_data [] ≠ 0 ∧
      checksum_data crcCheckInput = 0xA71C05DF ∧
      checksum_data crcCheckInput ≠ 0xE3069283 ∧
      calculate_crc32c crcCheckInput 0 = 0xE3069283 ∧
      refCrc32c crcCheckInput = 0xE3069283 := by
  refine ⟨rfl, by decide, by decide, ?_, by decide, by decide⟩
  intro h
  rw [show checksum_data crcCheckInput = 0xA71C05DF by decide] at h
  exact absurd h (by decide)

/-- C2: BlockCache::get_block keeps no cache state. For every device
state and block id it leaves the device blocks and write log unchanged,
issues exactly one fresh device read, and returns a buffer equal to the
current device content of that block with is_dirty = false. The returned
value is a function of the device state alone, so bytes mutated in a
previously returned buffer (and dirty marks set on it) are never written
to the device by the cache and are invisible to later get_block calls. -/
theorem c2_get_block_fresh_read (dev : MemDev) (id : Nat) :
    (get_block dev id).1.data = dev.blocks id ∧
      (get_block dev id).1.is_dirty = false ∧
      (get_block dev id).1.block_id = id ∧
      (get_block dev id).2.blocks = dev.blocks ∧
      (get_block dev id).2.writeLog = dev.writeLog ∧
      (get_block dev id).2.readLog = dev.readLog ++ [id] ∧
      (get_block dev id).2.flushes = dev.flushes ∧
      (get_block dev id).2.totalBlocks = dev.totalBlocks :=
  ⟨rfl, rfl, rfl, rfl, rfl, rfl, rfl, rfl⟩

/-- C3: the claim fails on the code. SadakFs::sync only calls the device
flush: for every filesystem state it returns Ok with the device write
log unchanged (no dirty block and no superblock write reaches the
device), the flush counter incremented exactly once (the claim requires
a flush between the data phase and the superblock phase plus a final
flush), and the in-memory superblock — metadata_root_id, timestamp and
checksum included — completely untouched. -/
theorem c3_sync_only_flushes (fs : SadakFs) :
    sync fs = .ok { fs with dev := fs.dev.flush } ∧
      (fs.dev.flush).writeLog = fs.dev.writeLog ∧
      (fs.dev.flush).blocks = fs.dev.blocks ∧
      (fs.dev.flush).flushes = fs.dev.flushes + 1 ∧
      ((sync fs).map fun f => f.superblock) = .ok fs.superblock :=
  ⟨rfl, rfl, rfl, rfl, rfl⟩

/-- C1: the claim fails on the code. On a fresh all-zero 4096-block
device, format succeeds, but: the allocator never pre-marks block 0 or
the bitmap region, so the metadata root it allocates is block 0 itself;
and since the cache keeps no entries and never writes dirty buffers
back, format issues no device write at all (write log empty, block 0
still all zero) — the superblock exists only in memory. mount of the
formatted device then reads zeros, sees magic 0, and fails with
InvalidSuperblock instead of returning the fields format produced. -/
theorem c1_format_then_mount_fails :
    ((format zeroDev).map fun fs =>
        (fs.superblock.metadata_root_id, fs.superblock.bitmap_start_id,
         fs.superblock.total_blocks, mount fs.dev)) =
      .ok (0, 1, 4096, .error .invalidSuperblock) ∧
      ((format zeroDev).map fun fs => fs.dev.writeLog) = .ok [] ∧
      ((format zeroDev).map fun fs => fs.dev.blocks 0) =
        .ok (List.replicate 4096 0) :=
  ⟨rfl, rfl, rfl⟩

/-- A device whose on-disk bitmap block (block 1) has its two lowest
bits set: blocks 0 and 1 — block 0 and the bitmap itself — form the
reserved prefix, all other bits are zero. -/
def dev5 : MemDev :=
  { totalBlocks := 32768,
    blocks := fun i =>
      if i = 1 then 3 :: List.replicate 4095 0 else List.replicate 4096 0 }

/-- C5: the claim fails on the code. With the reserved prefix 0,1 marked
allocated on disk, the first allocate_block call returns LBA 2 — the
first-fit scan inside one call is as specified — but the bit it sets
lives only in the transient cache buffer that the call drops, and the
device is never written. The second call re-reads the unchanged bitmap
and returns LBA 2 again instead of 3: the first two allocations are
2, 2, not the strictly ascending 2, 3 the claim requires. -/
theorem c5_allocate_block_repeats :
    (((Allocator.new 32768 1).allocate_block dev5).map Prod.fst) = .ok 2 ∧
      (((Allocator.new 32768 1).allocate_block dev5).bind fun p =>
        ((Allocator.new 32768 1).allocate_block p.2).map Prod.fst) = .ok 2 ∧
      (((Allocator.new 32768 1).allocate_block dev5).map fun p =>
        (p.2.blocks 1, p.2.writeLog)) = .ok (3 :: List.replicate 4095 0, []) :=
  ⟨rfl, rfl, rfl⟩

/-- A 16-block device (16 is not a multiple of 32768) whose bitmap block
marks exactly blocks 0 .. 15 — the whole device — as allocated: the
first two bitmap bytes are 0xFF, the rest zero. -/
def dev10 : MemDev :=
  { totalBlocks := 16,
    blocks := fun i =>
      if i = 1 then 255 :: 255 :: List.replicate 4094 0
      else List.replicate 4096 0 }

/-- C10: confirmed. On dev10 every block inside the device capacity is
marked allocated, yet allocate_block does not return OutOfSpace: the
scan continues into the bits of the bitmap block beyond the capacity
and returns LBA 16 = total_blocks, an address past the end of the
device. -/
theorem c10_allocate_beyond_capacity :
    (((Allocator.new 16 1).allocate_block dev10).map Prod.fst) = .ok 16 ∧
      dev10.totalBlocks = 16 ∧ dev10.totalBlocks % 32768 ≠ 0 ∧
      dev10.totalBlocks ≤ 16 :=
  ⟨rfl, rfl, by decide, by decide⟩

/-- A block with the B-tree node checksum field (repr(C) offset 16 of
BTreeNodeHeader) replaced by zero bytes, as the claim prescribes for the
recomputation. -/
def zeroCksumFieldNode (blk : List Nat) : List Nat :=
  blk.take 16 ++ [0, 0, 0, 0] ++ blk.drop 20

/-- Outcome kinds for the get_node claim: success, the two failure kinds
the claim names (spec section 7 distinguishes ChecksumError from
IOError), and any other error the code might actually return. -/
inductive C6Kind where
  | okNode
  | checksumError
  | invalidNode
  | otherError (e : SyscallError)
deriving DecidableEq

/-- Modelled from the spec (section 4.5, Read): the outcome the claim
prescribes for get_node — ChecksumError when the stored checksum differs
from the reference CRC32C of the block with the checksum field zeroed,
InvalidNode when the header block_id differs from the requested id,
success otherwise. -/
def c6SpecKind (dev : MemDev) (id : Nat) : C6Kind :=
  let data := dev.blocks id
  if refCrc32c (zeroCksumFieldNode data) ≠ readLE data 16 4 then .checksumError
  else if readLE data 8 8 ≠ id then .invalidNode
  else .okNode

/-- The outcome kind the code actually produces for get_node. -/
def c6CodeKind (dev : MemDev) (id : Nat) : C6Kind :=
  match get_node dev id with
  | .ok _ => .okNode
  | .error e => .otherError e

theorem get_node_eq (dev : MemDev) (id : Nat) :
    get_node dev id = if verify_checksum (get_block dev id).1 then
      .ok (get_block dev id) else .error .ioFault := rfl

theorem verify_checksum_zeros :
    verify_checksum ⟨List.replicate 4096 0, 0, false⟩ = false := by
  unfold verify_checksum
  rw [checksum_data_zeros]
  decide

theorem get_node_zeroDev : get_node zeroDev 0 = .error .ioFault := by
  rw [get_node_eq,
    show verify_checksum (get_block zeroDev 0).1 = false from verify_checksum_zeros]
  simp

/-- C6 counterexample: on the all-zero device the code and the claim
disagree at block 0. The stored checksum is 0 while checksum_data of the
full zero block is 0xFFFFFFFF, so get_node fails — but with
SyscallError::EIO mapped into the device error type (an IOError in the
vocabulary of spec section 7), not with ChecksumError; the claim allows
only success, ChecksumError or InvalidNode as outcomes. -/
theorem c6_counterexample :
    c6CodeKind zeroDev 0 = .otherError .ioFault ∧
      c6CodeKind zeroDev 0 ≠ c6SpecKind zeroDev 0 := by
  have hcode : c6CodeKind zeroDev 0 = .otherError .ioFault := by
    unfold c6CodeKind
    rw [get_node_zeroDev]
  refine ⟨hcode, ?_⟩
  rw [hcode]
  simp only [c6SpecKind]
  split
  · simp
  · split <;> simp

/-- The amended read behaviour: get_node recomputes checksum_data over
the full block — checksum field included and with the register-0 variant
of the CRC — compares it with the header field at offset 16, fails with
EIO on mismatch, and never validates the header block_id against the
requested id. -/
def c6Amended (dev : MemDev) (id : Nat) : Except SyscallError (CacheBlock × MemDev) :=
  if checksum_data (dev.blocks id) == readLE (dev.blocks id) 16 4 then
    .ok (⟨dev.blocks id, id, false⟩, { dev with readLog := dev.readLog ++ [id] })
  else .error .ioFault

/-- C6 amended: for every device state and id, get_node behaves exactly
as c6Amended describes. In particular a node whose header block_id
differs from id is served without any InvalidNode error as long as its
checksum matches. -/
theorem c6_amended_get_node (dev : MemDev) (id : Nat) :
    get_node dev id = c6Amended dev id := rfl

/-- A 4096-byte block with the superblock checksum field (repr(C)
offset 48) replaced by zero bytes, as the claim prescribes for the
recomputation during mount. -/
def zeroCksumFieldSb (blk : List Nat) : List Nat :=
  blk.take 48 ++ [0, 0, 0, 0] ++ blk.drop 52

/-- Modelled from the spec (sections 3 and 4.6): the superblock check
the claim prescribes for mount — the magic must equal the SADAK
constant and the stored checksum must equal the reference CRC32C of the
entire block with the checksum field treated as zero. The claim states
that mount fails with InvalidSuperblock exactly when this check
fails. -/
def c7SpecValid (blk : List Nat) : Bool :=
  (readLE blk 0 8 == SADAK_MAGIC) &&
    (readLE blk 48 4 == refCrc32c (zeroCksumFieldSb blk))

/-- The superblock content of the C7 counterexample with its checksum
field zeroed: the magic in the first eight bytes, everything else
zero. -/
def b7z : List Nat := leBytes 8 SADAK_MAGIC ++ List.replicate 4088 0

/-- The on-disk superblock of the C7 counterexample: magic at offset 0,
the reference CRC32C of b7z (0xEAD5BA48) stored in the checksum field
at offset 48, zero elsewhere. The claim accepts this block. -/
def blk7 : List Nat :=
  leBytes 8 SADAK_MAGIC ++ List.replicate 40 0 ++ leBytes 4 0xEAD5BA48 ++
    List.replicate 4044 0

/-- A device carrying blk7 as its superblock. -/
def dev7 : MemDev :=
  { totalBlocks := 4096,
    blocks := fun i => if i = 0 then blk7 else List.replicate 4096 0 }

theorem crcRunS_append (xs ys : List Nat) (r : Nat) :
    crcRunS (xs ++ ys) r = crcRunS ys (crcRunS xs r) := by
  rw [crcRunS_eq_foldl, crcRunS_eq_foldl, crcRunS_eq_foldl, List.foldl_append]

theorem leBytes_length : ∀ (n v : Nat), (leBytes n v).length = n := by
  intro n
  induction n with
  | zero => intro v; rfl
  | succ n ih => intro v; simp [leBytes, ih]

set_option maxRecDepth 100000 in
theorem chunk_b7z_1 :
    crcRunS (leBytes 8 SADAK_MAGIC ++ List.replicate 1016 0) 0xFFFFFFFF =
      0x98F5AAF5 := by decide

set_option maxRecDepth 100000 in
theorem chunk_zeros_a2 :
    crcRunS (List.replicate 1024 0) 0x98F5AAF5 = 0x9DE6C195 := by decide

set_option maxRecDepth 100000 in
theorem chunk_zeros_a3 :
    crcRunS (List.replicate 1024 0) 0x9DE6C195 = 0x693E670D := by decide

set_option maxRecDepth 100000 in
theorem chunk_zeros_a4 :
    crcRunS (List.replicate 1024 0) 0x693E670D = 0x152A45B7 := by decide

theorem b7z_chunks :
    b7z = (leBytes 8 SADAK_MAGIC ++ List.replicate 1016 0) ++
      List.replicate 1024 0 ++ List.replicate 1024 0 ++ List.replicate 1024 0 := by
  unfold b7z
  simp only [List.append_assoc, List.append_replicate_replicate]

theorem byteValid_b7z : ByteValid b7z :=
  byteValid_append (byteValid_leBytes 8 _) (byteValid_replicate_zero _)

/-- The reference CRC32C of the zero-checksum superblock image b7z. -/
theorem refCrc32c_b7z : refCrc32c b7z = 0xEAD5BA48 := by
  rw [refCrc32c_eval _ byteValid_b7z, b7z_chunks, crcRunS_append, crcRunS_append,
    crcRunS_append, chunk_b7z_1, chunk_zeros_a2, chunk_zeros_a3, chunk_zeros_a4]
  decide

set_option maxRecDepth 100000 in
theorem chunk_blk7_1 :
    crcRunS (leBytes 8 SADAK_MAGIC ++ List.replicate 40 0 ++
      leBytes 4 0xEAD5BA48 ++ List.replicate 972 0) 0 = 0x6AA4E2C2 := by decide

set_option maxRecDepth 100000 in
theorem chunk_zeros_s2 :
    crcRunS (List.replicate 1024 0) 0x6AA4E2C2 = 0x92B3E8D2 := by decide

set_option maxRecDepth 100000 in
theorem chunk_zeros_s3 :
    crcRunS (List.replicate 1024 0) 0x92B3E8D2 = 0x8DB3A58F := by decide

set_option maxRecDepth 100000 in
theorem chunk_zeros_s4 :
    crcRunS (List.replicate 1024 0) 0x8DB3A58F = 0x54E1CB24 := by decide

theorem blk7_chunks :
    blk7 = (leBytes 8 SADAK_MAGIC ++ List.replicate 40 0 ++
        leBytes 4 0xEAD5BA48 ++ List.replicate 972 0) ++
      List.replicate 1024 0 ++ List.replicate 1024 0 ++ List.replicate 1024 0 := by
  unfold blk7
  simp only [List.append_assoc, List.append_replicate_replicate]

theorem byteValid_blk7 : ByteValid blk7 :=
  byteValid_append (byteValid_append (byteValid_append (byteValid_leBytes 8 _)
    (byteValid_replicate_zero _)) (byteValid_leBytes 4 _))
    (byteValid_replicate_zero _)

/-- checksum_data of blk7 as the source computes it during mount: over
the full block, stored checksum field included, register starting at
zero. It differs from the stored checksum 0xEAD5BA48. -/
theorem checksum_data_blk7 : checksum_data blk7 = 0xAB1E34DB := by
  rw [checksum_data_eval _ byteValid_blk7, blk7_chunks, crcRunS_append,
    crcRunS_append, crcRunS_append, chunk_blk7_1, chunk_zeros_s2, chunk_zeros_s3,
    chunk_zeros_s4]
  decide

theorem zeroCksumFieldSb_structured (m : List Nat) (hm : m.length = 8) (v : Nat) :
    zeroCksumFieldSb (m ++ List.replicate 40 0 ++ leBytes 4 v ++
        List.replicate 4044 0) =
      m ++ List.replicate 4088 0 := by
  unfold zeroCksumFieldSb
  simp only [List.append_assoc]
  rw [List.take_append_eq_append_take, List.take_of_length_le (by omega), hm,
    List.take_append_eq_append_take, List.take_replicate, List.length_replicate,
    List.drop_append_eq_append_drop, List.drop_of_length_le (by omega), hm,
    List.drop_append_eq_append_drop, List.drop_replicate, List.length_replicate,
    List.drop_append_eq_append_drop,
    List.drop_of_length_le (by rw [leBytes_length]), leBytes_length,
    List.drop_replicate]
  norm_num
  rw [show (0 :: 0 :: 0 :: 0 :: List.replicate 4044 0 : List Nat) =
        List.replicate 4048 0 from rfl,
    List.append_replicate_replicate]

theorem zeroCksumFieldSb_blk7 : zeroCksumFieldSb blk7 = b7z :=
  zeroCksumFieldSb_structured (leBytes 8 SADAK_MAGIC)
    (leBytes_length 8 SADAK_MAGIC) 0xEAD5BA48

theorem mount_eq (dev : MemDev) :
    mount dev = if (readLE (dev.blocks 0) 0 8 != SADAK_MAGIC) ||
        (checksum_data (dev.blocks 0) != readLE (dev.blocks 0) 48 4) then
      .error .invalidSuperblock
    else
      .ok { dev := (get_block dev 0).2,
            allocator := Allocator.new (get_block dev 0).2.totalBlocks
              (readLE (dev.blocks 0) 32 8),
            root_id := readLE (dev.blocks 0) 24 8,
            superblock := parseSuperblock (dev.blocks 0) } := rfl

/-- C7 counterexample: the block blk7 carries the correct magic and, in
its checksum field, exactly the reference CRC32C (0xEAD5BA48) of the
block with that field zeroed — the claim accepts it and prescribes a
successful mount. The code instead recomputes checksum_data over the
full block including the stored field (yielding 0xAB1E34DB), sees a
mismatch, and fails with InvalidSuperblock. -/
theorem c7_counterexample :
    c7SpecValid blk7 = true ∧ dev7.blocks 0 = blk7 ∧
      mount dev7 = .error .invalidSuperblock := by
  refine ⟨?_, rfl, ?_⟩
  · unfold c7SpecValid
    rw [zeroCksumFieldSb_blk7, refCrc32c_b7z]
    decide
  · rw [mount_eq, show dev7.blocks 0 = blk7 from rfl, checksum_data_blk7]
    rw [show ((readLE blk7 0 8 != SADAK_MAGIC) ||
        ((0xAB1E34DB : Nat) != readLE blk7 48 4)) = true from by decide]
    rfl

/-- C7 amended: mount fails with InvalidSuperblock exactly when the
magic differs from the constant or the stored checksum field (offset
48) differs from checksum_data recomputed over the entire 4096-byte
block with the stored checksum field included — not with the field
treated as zero, and with the register-0 checksum variant rather than
reference CRC32C. -/
theorem c7_amended_mount (dev : MemDev) :
    mount dev = .error .invalidSuperblock ↔
      (readLE (dev.blocks 0) 0 8 ≠ SADAK_MAGIC ∨
        checksum_data (dev.blocks 0) ≠ readLE (dev.blocks 0) 48 4) := by
  rw [mount_eq]
  by_cases h : (readLE (dev.blocks 0) 0 8 != SADAK_MAGIC) ||
      (checksum_data (dev.blocks 0) != readLE (dev.blocks 0) 48 4)
  · rw [if_pos h]
    simp only [Bool.or_eq_true, bne_iff_ne] at h
    simp [h]
  · rw [if_neg h]
    simp only [Bool.or_eq_true, bne_iff_ne] at h
    push_neg at h
    simp [h.1, h.2]

/-- The state of a member after a write has been issued to it
(independently of whether it acknowledged). -/
def writeAttempt (id : Nat) (data : List Nat) (d : RDev) : RDev :=
  (RDev.write_block d id data).2

/-- The state of a member after a flush has been issued to it. -/
def flushAttempt (d : RDev) : RDev := (RDev.flush d).2

/-- Modelled from the spec (section 4.2, Write policy): issue the write
to every member — even after an earlier failure — and return success
exactly when every member acknowledges, otherwise IOError carrying the
per-device failures collected in member order. -/
def c8WriteSpec (r : Raid1Device) (id : Nat) (data : List Nat) :
    Except RaidError Unit × Raid1Device :=
  ((if r.devices.filterMap (fun d => d.writeErr) = [] then .ok ()
    else .error (.ioError (r.devices.filterMap (fun d => d.writeErr)))),
   { r with devices := r.devices.map (writeAttempt id data) })

/-- Modelled from the spec (section 4.2, Flush policy): same as the
write policy. -/
def c8FlushSpec (r : Raid1Device) : Except RaidError Unit × Raid1Device :=
  ((if r.devices.filterMap (fun d => d.flushErr) = [] then .ok ()
    else .error (.ioError (r.devices.filterMap (fun d => d.flushErr)))),
   { r with devices := r.devices.map flushAttempt })

theorem raidWriteGo_eq (id : Nat) (data : List Nat) : ∀ ds : List RDev,
    raidWriteGo id data ds =
      (ds.map (writeAttempt id data), ds.filterMap (fun d => d.writeErr),
       (ds.filter (fun d => d.writeErr == none)).length) := by
  intro ds
  induction ds with
  | nil => rfl
  | cons d ds ih =>
      show (let (res, d1) := RDev.write_block d id data
            let (ds1, errors, k) := raidWriteGo id data ds
            match res with
            | .ok _ => (d1 :: ds1, errors, k + 1)
            | .error e => (d1 :: ds1, e :: errors, k)) = _
      rw [ih]
      unfold RDev.write_block writeAttempt
      cases hd : d.writeErr with
      | none => simp [RDev.write_block, hd, List.filter_cons]
      | some e => simp [RDev.write_block, hd, List.filter_cons]

theorem raidFlushGo_eq : ∀ ds : List RDev,
    raidFlushGo ds =
      (ds.map flushAttempt, ds.filterMap (fun d => d.flushErr),
       (ds.filter (fun d => d.flushErr == none)).length) := by
  intro ds
  induction ds with
  | nil => rfl
  | cons d ds ih =>
      show (let (res, d1) := RDev.flush d
            let (ds1, errors, k) := raidFlushGo ds
            match res with
            | .ok _ => (d1 :: ds1, errors, k + 1)
            | .error e => (d1 :: ds1, e :: errors, k)) = _
      rw [ih]
      unfold RDev.flush flushAttempt
      cases hd : d.flushErr with
      | none => simp [RDev.flush, hd, List.filter_cons]
      | some e => simp [RDev.flush, hd, List.filter_cons]

theorem write_success_count (ds : List RDev) :
    (ds.filter (fun d => d.writeErr == none)).length +
      (ds.filterMap (fun d => d.writeErr)).length = ds.length := by
  induction ds with
  | nil => rfl
  | cons d ds ih =>
      cases hd : d.writeErr <;>
        simp [List.filter_cons, List.filterMap_cons, hd] <;> omega

theorem flush_success_count (ds : List RDev) :
    (ds.filter (fun d => d.flushErr == none)).length +
      (ds.filterMap (fun d => d.flushErr)).length = ds.length := by
  induction ds with
  | nil => rfl
  | cons d ds ih =>
      cases hd : d.flushErr <;>
        simp [List.filter_cons, List.filterMap_cons, hd] <;> omega

/-- C8: confirmed. Raid1Device::write_block issues the write to every
member — the resulting member list is exactly the map of the individual
write attempts, so each member is attempted even when an earlier member
failed — and returns Ok exactly when no member reported a failure,
otherwise IOError with the failures collected in member order; flush
behaves the same way. -/
theorem c8_write_all (r : Raid1Device) (id : Nat) (data : List Nat) :
    r.write_block id data = c8WriteSpec r id data ∧ r.flush = c8FlushSpec r := by
  constructor
  · unfold Raid1Device.write_block c8WriteSpec
    rw [raidWriteGo_eq]
    dsimp only
    have hc := write_success_count r.devices
    by_cases hfm : r.devices.filterMap (fun d => d.writeErr) = []
    · have hlen : (r.devices.filter (fun d => d.writeErr == none)).length =
          r.devices.length := by
        rw [hfm] at hc
        simpa using hc
      rw [if_pos hfm, if_neg (by omega)]
    · have hpos : (r.devices.filterMap (fun d => d.writeErr)).length ≠ 0 := by
        simpa [List.length_eq_zero] using hfm
      rw [if_neg hfm, if_pos (by omega)]
  · unfold Raid1Device.flush c8FlushSpec
    rw [raidFlushGo_eq]
    dsimp only
    have hc := flush_success_count r.devices
    by_cases hfm : r.devices.filterMap (fun d => d.flushErr) = []
    · have hlen : (r.devices.filter (fun d => d.flushErr == none)).length =
          r.devices.length := by
        rw [hfm] at hc
        simpa using hc
      rw [if_pos hfm, if_neg (by omega)]
    · have hpos : (r.devices.filterMap (fun d => d.flushErr)).length ≠ 0 := by
        simpa [List.length_eq_zero] using hfm
      rw [if_neg hfm, if_pos (by omega)]

/-- The state of a member after a read of block id has been issued to
it. -/
def consultMember (id : Nat) (d : RDev) : RDev :=
  { d with readLog := d.readLog ++ [id] }

/-- Modelled from the spec (section 4.2, Read policy): iterate the
members in construction order and return on the first success, leaving
the members after it untouched; when every member fails, return IOError
carrying the per-device errors collected in member order. -/
def c9ReadSpec (id : Nat) : List RDev → Except RaidError (List Nat) × List RDev
  | [] => (.error (.ioError []), [])
  | d :: ds =>
      match d.readErr with
      | none => (.ok (d.blocks id), consultMember id d :: ds)
      | some e =>
          let (res, ds1) := c9ReadSpec id ds
          ((match res with
            | .ok v => .ok v
            | .error (.ioError es) => .error (.ioError (e :: es))
            | .error x => .error x), consultMember id d :: ds1)

/-- Prefixing an error accumulator onto a read outcome (matches how the
source threads its errors vector through the member loop). -/
def prependErrors (errs : List SyscallError) :
    Except RaidError (List Nat) → Except RaidError (List Nat)
  | .ok v => .ok v
  | .error (.ioError es) => .error (.ioError (errs ++ es))
  | .error x => .error x

theorem prependErrors_nil (res : Except RaidError (List Nat)) :
    prependErrors [] res = res := by
  rcases res with er | v
  · rcases er with es | _ | _ | x <;> rfl
  · rfl

theorem prependErrors_append (errs : List SyscallError) (e : SyscallError)
    (res : Except RaidError (List Nat)) :
    prependErrors (errs ++ [e]) res =
      prependErrors errs (prependErrors [e] res) := by
  rcases res with er | v
  · rcases er with es | _ | _ | x <;> simp [prependErrors]
  · rfl

theorem raidReadGo_eq (id : Nat) : ∀ (ds : List RDev) (errs : List SyscallError),
    raidReadGo id ds errs =
      (prependErrors errs (c9ReadSpec id ds).1, (c9ReadSpec id ds).2) := by
  intro ds
  induction ds with
  | nil => intro errs; simp [raidReadGo, c9ReadSpec, prependErrors]
  | cons d ds ih =>
      intro errs
      cases hd : d.readErr with
      | none =>
          simp [raidReadGo, RDev.read_block, hd, c9ReadSpec, consultMember,
            prependErrors]
      | some e =>
          simp only [raidReadGo, RDev.read_block, hd, c9ReadSpec, ih (errs ++ [e]),
            consultMember]
          rw [prependErrors_append]
          cases hres : (c9ReadSpec id ds).1 with
          | error er => cases er <;> simp [prependErrors]
          | ok v => simp [prependErrors]

/-- C9: confirmed. Raid1Device::read_block behaves exactly as the
read-any policy describes: members are consulted in construction order,
the data of the first successful member is returned with every later member
left untouched, and when all members fail the result is IOError with
the per-device errors in member order. -/
theorem c9_read_any (r : Raid1Device) (id : Nat) :
    r.read_block id =
      ((c9ReadSpec id r.devices).1,
       { r with devices := (c9ReadSpec id r.devices).2 }) := by
  unfold Raid1Device.read_block
  rw [raidReadGo_eq, prependErrors_nil]

end Sadak
